import Mathlib

/-
  Verification of the TrustChain frontend client and its spec-modelled
  scoring backend.

  The definitions below are a shallow embedding of:
  - src/frontend/lib/api.ts            (getToken, apiFetch, createProject, ...)
  - src/frontend/app/auth/callback/page.tsx
        (ProjectPage button guards, VoteForm submit loop, NewProjectPage)
  - src/unnamed/part_000               (Pera wallet lazy singleton)
  and, where the claims concern the backend that is not part of the
  frontend sources, models written from the specification (each marked
  "Modelled from the spec:" in its doc comment).

  JavaScript timestamps are modelled as Int (epoch milliseconds); JS
  string truthiness (empty string is falsy) is made explicit.
-/

namespace TrustChain

/-- JavaScript logical-or specialised to strings: returns the first operand
unless it is falsy (the empty string). -/
def jsOr (a b : String) : String := if a = "" then b else a

/-- JavaScript truthiness of an optional string value, as used by the
guard on project.repo_url in ProjectPage. -/
def jsTruthy : Option String → Bool
  | none => false
  | some s => s ≠ ""

/-! ## src/frontend/lib/api.ts -/

/-- A JSON body of an HTTP response as JavaScript sees it: either an object
carrying an optional string detail field, or some other JSON value together
with its JavaScript string rendering. -/
inductive JsBody where
  | obj (detail : Option String)
  | other (asString : String)
deriving DecidableEq, Repr

/-- Reading the detail property: present only on objects that carry it;
absent properties read as undefined, modelled as the falsy empty string. -/
def JsBody.jsDetail : JsBody → String
  | .obj (some d) => d
  | .obj none => ""
  | .other s => s

/-- The JavaScript String conversion of the body value. -/
def JsBody.jsString : JsBody → String
  | .obj _ => "[object Object]"
  | .other s => s

/-- An HTTP response as apiFetch inspects it. body is none when the body is
not parseable JSON (res.json rejects). -/
structure ApiResponse where
  ok : Bool
  status : Nat
  statusText : String
  body : Option JsBody
deriving DecidableEq, Repr

/-- The message of the Error thrown by apiFetch on a non-ok response:
err.detail, or the String form of err, or res.statusText, where err is the
parsed body or, when parsing fails, an object whose detail is statusText
(api.ts lines 81-83). -/
def errMessage (res : ApiResponse) : String :=
  match res.body with
  | some b => jsOr b.jsDetail (jsOr b.jsString res.statusText)
  | none => jsOr res.statusText "[object Object]"

/-- apiFetch over an abstract response (api.ts lines 70-87): throws on a
non-ok response, returns undefined (none) on status 204, otherwise returns
the parsed JSON body. -/
def apiFetch (res : ApiResponse) : Except String (Option JsBody) :=
  if res.ok = false then Except.error (errMessage res)
  else if res.status = 204 then Except.ok none
  else
    match res.body with
    | some b => Except.ok (some b)
    | none => Except.error "SyntaxError: unexpected end of JSON input"

/-- getToken (api.ts lines 65-68): null outside the browser, otherwise the
stored localStorage value (which may be null, or the empty string). -/
def getToken (windowDefined : Bool) (stored : Option String) : Option String :=
  if windowDefined = false then none else stored

/-- The Authorization header apiFetch attaches (api.ts lines 74-79): present
exactly when the token is JS-truthy, i.e. non-null and non-empty. -/
def apiFetchAuthHeader (windowDefined : Bool) (stored : Option String) :
    Option String :=
  match getToken windowDefined stored with
  | some t => if t = "" then none else some ("Bearer " ++ t)
  | none => none

/-! ## src/frontend/app/auth/callback/page.tsx : ProjectPage guards -/

/-- Guard under which ProjectPage renders the Finalize button
(page.tsx lines 222-230): status is active and the voting deadline Date is
strictly less than the current Date. -/
def finalizeButtonShown (status : String) (deadlineVoting now : Int) : Bool :=
  (status == "active") && decide (deadlineVoting < now)

/-- Guard under which ProjectPage renders the Analyze Git button
(page.tsx lines 213-221): repo_url is truthy and status is not finalized. -/
def analyzeButtonShown (repoUrl : Option String) (status : String) : Bool :=
  jsTruthy repoUrl && (status != "finalized")

/-- Guard under which ProjectPage renders the vote card containing VoteForm
(page.tsx lines 334-346): status is not finalized and the user is loaded. -/
def voteCardShown (status : String) (userLoaded : Bool) : Bool :=
  (status != "finalized") && userLoaded

/-! ## src/frontend/app/auth/callback/page.tsx : VoteForm -/

/-- A project member as VoteForm receives it. -/
structure VFMember where
  id : Int
  user_id : Int
deriving DecidableEq, Repr

/-- The score values offered by the VoteForm select element
(page.tsx line 389), besides the empty placeholder. -/
def voteSelectOptions : List Int := [1, 2, 3, 4, 5]

/-- The sequence of submitVote calls issued by the VoteForm submit mutation
(page.tsx lines 363-374): for each member in order, skip the current user,
then submit only a recorded score s with s non-null and 1 <= s <= 5.
Each element pairs the member voted for with the submitted score. -/
def voteSubmitCalls (members : List VFMember) (currentUserId : Int)
    (scores : Int → Option Int) : List (VFMember × Int) :=
  members.filterMap (fun m =>
    if m.user_id = currentUserId then none
    else
      match scores m.id with
      | none => none
      | some s => if 1 ≤ s ∧ s ≤ 5 then some (m, s) else none)

/-! ## src/unnamed/part_000 : Pera wallet lazy singleton -/

/-- A PeraWalletConnect instance: its construction index, configured chain,
and the connector's current account list when a connector exists. -/
structure PeraWallet where
  instanceId : Nat
  chainId : Nat
  connectorAccounts : Option (List String)
deriving DecidableEq, Repr

/-- The wallet module's top-level state: the cached peraWallet variable and
how many constructor runs have happened. -/
structure WalletModuleState where
  peraWallet : Option PeraWallet
  constructed : Nat
deriving DecidableEq, Repr

/-- The module state at load time: cache empty, nothing constructed. -/
def walletModuleLoad : WalletModuleState :=
  { peraWallet := none, constructed := 0 }

/-- getPeraWallet (part_000 lines 13-28): throws outside the browser before
touching the cache; otherwise returns the cached instance, constructing one
configured with chainId 416002 only when the cache is empty. -/
def getPeraWallet (windowDefined : Bool) (st : WalletModuleState) :
    Except String (PeraWallet × WalletModuleState) :=
  if windowDefined = false then
    Except.error "Pera Wallet is only available in the browser"
  else
    match st.peraWallet with
    | some w => Except.ok (w, st)
    | none =>
        let w : PeraWallet :=
          { instanceId := st.constructed, chainId := 416002,
            connectorAccounts := none }
        Except.ok (w, { peraWallet := some w, constructed := st.constructed + 1 })

/-- getConnectedAccounts (part_000 lines 50-53): obtains the wallet through
getPeraWallet and reads connector accounts, defaulting to the empty list. -/
def getConnectedAccounts (windowDefined : Bool) (st : WalletModuleState) :
    Except String (List String × WalletModuleState) :=
  match getPeraWallet windowDefined st with
  | Except.error e => Except.error e
  | Except.ok (w, st2) => Except.ok (w.connectorAccounts.getD [], st2)

/-- Runs n successive wallet operations in one session (window defined),
each going through getPeraWallet, threading the module state. -/
def runGetPeraWallet : Nat → WalletModuleState → WalletModuleState
  | 0, st => st
  | n + 1, st =>
      match getPeraWallet true st with
      | Except.ok (_, st2) => runGetPeraWallet n st2
      | Except.error _ => runGetPeraWallet n st

/-! ## Spec-modelled backend (absent from the frontend sources) -/

/-- Modelled from the spec: a ScoreRecord produced by finalize, one per
member, with the component scores and final score. -/
structure ScoreRecord where
  member_id : Int
  code_score : ℚ
  time_score : ℚ
  peer_score : ℚ
  final_score : ℚ
deriving DecidableEq, Repr

/-- Modelled from the spec: the per-project backend state relevant to
finalization, namely the lifecycle phase, the persisted ScoreRecords and
the commitment hash once created. -/
structure ProjState where
  phase : String
  records : List ScoreRecord
  commitment : Option String
deriving DecidableEq, Repr

/-- Outcomes of request_finalize as the spec describes them. -/
inductive FinalizeOutcome where
  | ok (records : List ScoreRecord)
  | alreadyFinalized (records : List ScoreRecord)
  | lifecycleViolation
deriving DecidableEq, Repr

/-- Modelled from the spec: request_finalize is legal only if phase is
active and now is at or after the voting deadline (inclusive boundary);
calling it again while already finalized is a benign idempotent signal
returning the existing records without recomputing; every other invocation
fails with LifecycleViolation and changes nothing. computed and commitHash
stand for the scoring engine output and commitment of this invocation. -/
def request_finalize (now deadlineVoting : Int) (computed : List ScoreRecord)
    (commitHash : String) (st : ProjState) : FinalizeOutcome × ProjState :=
  if st.phase = "finalized" then
    (FinalizeOutcome.alreadyFinalized st.records, st)
  else if st.phase = "active" ∧ deadlineVoting ≤ now then
    (FinalizeOutcome.ok computed,
      { phase := "finalized", records := computed, commitment := some commitHash })
  else
    (FinalizeOutcome.lifecycleViolation, st)

/-- The project rules persisted by a successful create. -/
structure ProjectRules where
  weight_code : ℚ
  weight_time : ℚ
  weight_vote : ℚ
  deadline_contribution : Int
  deadline_voting : Int
deriving DecidableEq, Repr

/-- Outcome of create-project: either the persisted rules or a synchronous
rejection that persists nothing. -/
inductive CreateOutcome where
  | ok (rules : ProjectRules)
  | validationError
deriving DecidableEq, Repr

/-- Modelled from the spec: create-project validation rejects with
ValidationError, persisting nothing, unless the three weights sum to 1.0
within the floating tolerance of one millionth and the voting deadline is
strictly after the contribution deadline. -/
def create_project (wc wt wv : ℚ) (dc dv : Int) : CreateOutcome :=
  if |wc + wt + wv - 1| ≤ 1 / 1000000 ∧ dc < dv then
    CreateOutcome.ok
      { weight_code := wc, weight_time := wt, weight_vote := wv,
        deadline_contribution := dc, deadline_voting := dv }
  else
    CreateOutcome.validationError

/-- Vote Ledger error taxonomy relevant to vote submission. -/
inductive VoteError where
  | invalidVote
  | lifecycleViolation
deriving DecidableEq, Repr

/-- Modelled from the spec: resubmission replaces the prior vote of the
same (voter, ratee) pair instead of duplicating it. The ledger is a list of
(voter, ratee, score) triples. -/
def replaceVote (ledger : List (Int × Int × Int)) (voter ratee score : Int) :
    List (Int × Int × Int) :=
  (ledger.filter (fun v => !(v.1 == voter && v.2.1 == ratee))) ++
    [(voter, ratee, score)]

/-- Modelled from the spec: submit_vote fails with InvalidVote if voter
equals ratee, the score is outside 1..5, either party is not a member, or
the current time is outside the active voting window; otherwise it inserts
or replaces the (voter, ratee) entry. The pair returned is the call result
together with the ledger afterwards; on failure the ledger is untouched. -/
def submit_vote (memberIds : List Int) (phase : String)
    (now deadlineVoting : Int) (voter ratee score : Int)
    (ledger : List (Int × Int × Int)) :
    Except VoteError (Int × Int × Int) × List (Int × Int × Int) :=
  if voter = ratee ∨ ¬(1 ≤ score ∧ score ≤ 5) ∨ voter ∉ memberIds ∨
      ratee ∉ memberIds ∨ ¬(phase = "active" ∧ now ≤ deadlineVoting) then
    (Except.error VoteError.invalidVote, ledger)
  else
    (Except.ok (voter, ratee, score), replaceVote ledger voter ratee score)

/-! ## Claim theorems -/

/-- C1 counterexample: at the exact instant now equals the voting deadline
the inclusive-boundary condition holds, yet ProjectPage does not offer the
Finalize button, because its guard compares the deadline strictly. -/
theorem finalize_boundary_counterexample :
    (1700000000000 : Int) ≤ 1700000000000 ∧
      finalizeButtonShown "active" 1700000000000 1700000000000 = false := by
  exact ⟨le_refl _, by decide⟩

/-- C1 (amended): the client offers the Finalize button exactly when the
project status is active and now is strictly after the voting deadline; the
finalize operation itself, modelled from the spec, is legal exactly when
the phase is active and now is at or after the voting deadline (inclusive
boundary), and before the deadline it fails with LifecycleViolation. -/
theorem finalize_boundary_amended (status : String) (dv now : Int)
    (computed : List ScoreRecord) (commitHash : String) (st : ProjState) :
    (finalizeButtonShown status dv now = true ↔ (status = "active" ∧ dv < now)) ∧
    (st.phase = "active" →
      ((request_finalize now dv computed commitHash st).1 =
          FinalizeOutcome.lifecycleViolation ↔ now < dv) ∧
      (dv ≤ now →
        (request_finalize now dv computed commitHash st).1 =
            FinalizeOutcome.ok computed ∧
        ((request_finalize now dv computed commitHash st).2).phase =
            "finalized")) := by
  constructor
  · simp [finalizeButtonShown]
  · intro hph
    have hne : ¬ st.phase = "finalized" := by rw [hph]; decide
    constructor
    · constructor
      · intro hout
        by_contra hnow
        push_neg at hnow
        simp [request_finalize, hne, hph, hnow] at hout
      · intro hnow
        have : ¬ (st.phase = "active" ∧ dv ≤ now) := by
          rintro ⟨-, h⟩
          exact absurd hnow (not_lt.mpr h)
        simp [request_finalize, hne, this]
    · intro hle
      simp [request_finalize, hne, hph, hle]

/-- C1 witness: applying the amended theorem at concrete values, finalize at
now equal to the deadline succeeds on an active project. -/
theorem finalize_boundary_amended_witness :
    (request_finalize 5 5 [] "h"
        { phase := "active", records := [], commitment := none }).1 =
      FinalizeOutcome.ok [] :=
  (((finalize_boundary_amended "active" 5 5 [] "h"
      { phase := "active", records := [], commitment := none }).2 rfl).2
    (le_refl 5)).1

/-- C6: while a project is finalized, ProjectPage renders neither the
Analyze Git button nor the vote card, so the client issues no
GitActivitySample or Vote mutation against a finalized project. -/
theorem finalized_no_mutations (repoUrl : Option String) (userLoaded : Bool) :
    analyzeButtonShown repoUrl "finalized" = false ∧
    voteCardShown "finalized" userLoaded = false := by
  constructor
  · simp [analyzeButtonShown]
  · simp [voteCardShown]

/-- C8 counterexample: with window defined and the empty string stored as
the token, getToken returns a non-null value, yet apiFetch attaches no
Authorization header, refuting the attach-iff-non-null claim. -/
theorem auth_header_nonnull_counterexample :
    getToken true (some "") ≠ none ∧ apiFetchAuthHeader true (some "") = none := by
  exact ⟨by decide, rfl⟩

/-- C8 (amended): apiFetch attaches the Bearer Authorization header exactly
when getToken returns a non-null and non-empty token, and getToken is total
outside the browser, returning null whenever window is undefined. -/
theorem auth_header_iff_token (w : Bool) (stored : Option String) :
    ((apiFetchAuthHeader w stored).isSome ↔
        ∃ t, getToken w stored = some t ∧ t ≠ "") ∧
    (∀ t, getToken w stored = some t → t ≠ "" →
        apiFetchAuthHeader w stored = some ("Bearer " ++ t)) ∧
    getToken false stored = none := by
  refine ⟨?_, ?_, rfl⟩
  · unfold apiFetchAuthHeader
    cases h : getToken w stored with
    | none => simp
    | some t =>
        by_cases ht : t = "" <;> simp [ht]
  · intro t hg ht
    unfold apiFetchAuthHeader
    rw [hg]
    simp [ht]

/-- C8 witness: applying the amended theorem at a concrete non-empty stored
token, the header carries that token. -/
theorem auth_header_iff_token_witness :
    apiFetchAuthHeader true (some "abc") = some ("Bearer " ++ "abc") :=
  (auth_header_iff_token true (some "abc")).2.1 "abc" rfl (by decide)

/-- C2: a create-project request that succeeds persists weights summing to
1.0 within one millionth, and a weight triple outside that tolerance is
rejected synchronously as ValidationError, persisting nothing. -/
theorem create_project_weight_validation (wc wt wv : ℚ) (dc dv : Int) :
    (∀ r, create_project wc wt wv dc dv = CreateOutcome.ok r →
        |r.weight_code + r.weight_time + r.weight_vote - 1| ≤ 1 / 1000000) ∧
    (¬ |wc + wt + wv - 1| ≤ 1 / 1000000 →
        create_project wc wt wv dc dv = CreateOutcome.validationError) := by
  constructor
  · intro r hr
    unfold create_project at hr
    split at hr
    · rename_i hcond
      cases hr
      exact hcond.1
    · cases hr
  · intro hbad
    unfold create_project
    have h2 : ¬ (|wc + wt + wv - 1| ≤ 1 / 1000000 ∧ dc < dv) := fun h => hbad h.1
    rw [if_neg h2]

/-- C2 witness: a triple summing to 3/2 is rejected. -/
theorem create_project_weight_validation_witness :
    create_project (1/2) (1/2) (1/2) 0 1 = CreateOutcome.validationError :=
  (create_project_weight_validation (1/2) (1/2) (1/2) 0 1).2 (by
    rw [show (1:ℚ)/2 + 1/2 + 1/2 - 1 = 1/2 by norm_num,
      abs_of_pos (by norm_num : (0:ℚ) < 1/2)]
    norm_num)

/-- C3: finalize is idempotent for the caller: on an already finalized
project it returns the existing records and leaves the whole state,
commitment included, unchanged, and the client guard never shows the
Finalize button once the status is finalized; moreover after a successful
finalize, a second call with any new inputs returns the records of the
first call and never recomputes or changes them. -/
theorem finalize_idempotent (now now2 dv : Int)
    (computed computed2 : List ScoreRecord) (h1 h2 : String) (st : ProjState) :
    (st.phase = "finalized" →
      (request_finalize now dv computed h1 st).1 =
          FinalizeOutcome.alreadyFinalized st.records ∧
      (request_finalize now dv computed h1 st).2 = st ∧
      finalizeButtonShown st.phase dv now = false) ∧
    (st.phase = "active" → dv ≤ now →
      (request_finalize now2 dv computed2 h2
          ((request_finalize now dv computed h1 st).2)).1 =
        FinalizeOutcome.alreadyFinalized computed ∧
      (request_finalize now2 dv computed2 h2
          ((request_finalize now dv computed h1 st).2)).2 =
        (request_finalize now dv computed h1 st).2) := by
  constructor
  · intro hph
    refine ⟨?_, ?_, ?_⟩
    · simp [request_finalize, hph]
    · simp [request_finalize, hph]
    · rw [hph]
      simp [finalizeButtonShown]
  · intro hph hle
    have hne : ¬ st.phase = "finalized" := by rw [hph]; decide
    have hfst : (request_finalize now dv computed h1 st).2 =
        { phase := "finalized", records := computed, commitment := some h1 } := by
      simp [request_finalize, hne, hph, hle]
    rw [hfst]
    constructor
    · simp [request_finalize]
    · simp [request_finalize]

/-- C3 witness: applying the theorem at a concrete finalized project, a
repeated finalize returns the stored records and changes nothing. -/
theorem finalize_idempotent_witness :
    (request_finalize 9 5 [] "h"
        { phase := "finalized", records := [], commitment := some "c" }).2 =
      { phase := "finalized", records := [], commitment := some "c" } :=
  ((finalize_idempotent 9 9 5 [] [] "h" "h"
      { phase := "finalized", records := [], commitment := some "c" }).1 rfl).2.1

/-- C4: the VoteForm submit flow never issues a vote whose ratee is the
current user, for every member list, user and score selection; and the
spec-modelled Vote Ledger rejects any voter-equals-ratee submission with
InvalidVote, leaving the ledger untouched. -/
theorem no_self_vote (members : List VFMember) (currentUserId : Int)
    (scores : Int → Option Int) (memberIds : List Int) (phase : String)
    (now dv voter score : Int) (ledger : List (Int × Int × Int)) :
    (∀ p ∈ voteSubmitCalls members currentUserId scores,
        p.1.user_id ≠ currentUserId) ∧
    submit_vote memberIds phase now dv voter voter score ledger =
      (Except.error VoteError.invalidVote, ledger) := by
  constructor
  · intro p hp
    unfold voteSubmitCalls at hp
    rw [List.mem_filterMap] at hp
    obtain ⟨m, hm, hf⟩ := hp
    by_cases h : m.user_id = currentUserId
    · simp [h] at hf
    · simp only [h, if_false, if_neg] at hf
      cases hs : scores m.id with
      | none => rw [hs] at hf; cases hf
      | some s =>
          rw [hs] at hf
          by_cases hrange : 1 ≤ s ∧ s ≤ 5
          · simp only [hrange, and_self, if_true, Option.some.injEq] at hf
            subst hf
            exact h
          · simp [hrange] at hf
  · unfold submit_vote
    have : voter = voter ∨ ¬(1 ≤ score ∧ score ≤ 5) ∨ voter ∉ memberIds ∨
        voter ∉ memberIds ∨ ¬(phase = "active" ∧ now ≤ dv) := Or.inl rfl
    simp [this]

/-- C4 witness: applying the theorem at a concrete self-vote attempt, the
ledger is returned unchanged with InvalidVote, and a concrete submit
sequence is checked to contain no self-directed call. -/
theorem no_self_vote_witness :
    submit_vote [1, 2] "active" 0 5 1 1 3 [] =
      (Except.error VoteError.invalidVote, []) :=
  (no_self_vote [] 0 (fun _ => none) [1, 2] "active" 0 5 1 3 []).2

/-- The members voted for by a VoteForm submission form a sublist of the
member list, in order. -/
theorem voteSubmitCalls_fst_sublist (members : List VFMember) (cu : Int)
    (scores : Int → Option Int) :
    ((voteSubmitCalls members cu scores).map Prod.fst).Sublist members := by
  induction members with
  | nil => simp [voteSubmitCalls]
  | cons m ms ih =>
      unfold voteSubmitCalls at ih ⊢
      rw [List.filterMap_cons]
      by_cases h : m.user_id = cu
      · simp only [h, if_true]
        exact ih.cons m
      · cases hs : scores m.id with
        | none =>
            simp only [h, if_false, hs]
            exact ih.cons m
        | some s =>
            by_cases hr : 1 ≤ s ∧ s ≤ 5
            · simp only [h, if_false, hs, hr, and_self, if_true, List.map_cons]
              exact ih.cons₂ m
            · simp only [h, if_false, hs, hr, if_neg hr]
              exact ih.cons m

/-- C5: every submitVote call issued by the VoteForm carries a score in
1..5; the selectable score values are exactly 1..5; one submission issues
at most one vote per member when member ids are distinct; and the
spec-modelled ledger rejects any out-of-range score with InvalidVote,
leaving the ledger untouched. -/
theorem vote_scores_in_range (members : List VFMember) (currentUserId : Int)
    (scores : Int → Option Int) (memberIds : List Int) (phase : String)
    (now dv voter ratee score : Int) (ledger : List (Int × Int × Int)) :
    (∀ p ∈ voteSubmitCalls members currentUserId scores,
        1 ≤ p.2 ∧ p.2 ≤ 5) ∧
    (∀ n ∈ voteSelectOptions, 1 ≤ n ∧ n ≤ 5) ∧
    ((members.map VFMember.id).Nodup →
      ((voteSubmitCalls members currentUserId scores).map
          (fun p => p.1.id)).Nodup) ∧
    (¬(1 ≤ score ∧ score ≤ 5) →
      submit_vote memberIds phase now dv voter ratee score ledger =
        (Except.error VoteError.invalidVote, ledger)) := by
  refine ⟨?_, by decide, ?_, ?_⟩
  · intro p hp
    unfold voteSubmitCalls at hp
    rw [List.mem_filterMap] at hp
    obtain ⟨m, hm, hf⟩ := hp
    by_cases h : m.user_id = currentUserId
    · simp [h] at hf
    · simp only [h, if_false] at hf
      cases hs : scores m.id with
      | none => rw [hs] at hf; cases hf
      | some s =>
          rw [hs] at hf
          by_cases hrange : 1 ≤ s ∧ s ≤ 5
          · simp only [hrange, and_self, if_true, Option.some.injEq] at hf
            subst hf
            exact hrange
          · simp [hrange] at hf
  · intro hnd
    have hsub :=
      (voteSubmitCalls_fst_sublist members currentUserId scores).map VFMember.id
    have hres := List.Nodup.sublist hsub hnd
    rw [List.map_map] at hres
    exact hres
  · intro hbad
    unfold submit_vote
    have hcond : voter = ratee ∨ ¬(1 ≤ score ∧ score ≤ 5) ∨
        voter ∉ memberIds ∨ ratee ∉ memberIds ∨
        ¬(phase = "active" ∧ now ≤ dv) := Or.inr (Or.inl hbad)
    rw [if_pos hcond]

/-- C5 witness: applying the theorem at a concrete out-of-range score, the
submission is rejected and the ledger unchanged. -/
theorem vote_scores_in_range_witness :
    submit_vote [1, 2] "active" 0 5 1 2 9 [] =
      (Except.error VoteError.invalidVote, []) :=
  (vote_scores_in_range [] 0 (fun _ => none) [1, 2] "active" 0 5 1 2 9 []).2.2.2
    (by decide)

/-- C7 counterexample: a non-ok response whose body parses to an object
with no detail field yields the error message "[object Object]", not the
statusText fallback the claim states. -/
theorem apiFetch_detail_fallback_counterexample :
    apiFetch { ok := false, status := 500, statusText := "Internal Server Error",
               body := some (JsBody.obj none) } =
      Except.error "[object Object]" ∧
    ("[object Object]" : String) ≠ "Internal Server Error" := by
  exact ⟨rfl, by decide⟩

/-- C7 (amended): every non-ok response makes apiFetch throw; the thrown
message is the body detail when present and non-empty, the statusText when
the body is unparseable JSON and the statusText is non-empty, and the
string form of the parsed body when it carries no usable detail; every ok
response with a parseable body returns the parsed body, returning
undefined exactly when the status is 204. -/
theorem apiFetch_error_surfacing (res : ApiResponse) :
    (res.ok = false → ∃ msg, apiFetch res = Except.error msg) ∧
    (res.ok = false → ∀ d, res.body = some (JsBody.obj (some d)) → d ≠ "" →
        apiFetch res = Except.error d) ∧
    (res.ok = false → res.body = none → res.statusText ≠ "" →
        apiFetch res = Except.error res.statusText) ∧
    (res.ok = false → res.body = some (JsBody.obj none) →
        apiFetch res = Except.error "[object Object]") ∧
    (res.ok = true → res.status = 204 → apiFetch res = Except.ok none) ∧
    (res.ok = true → res.status ≠ 204 → ∀ b, res.body = some b →
        apiFetch res = Except.ok (some b)) ∧
    (res.ok = true → ∀ b, res.body = some b →
        (apiFetch res = Except.ok none ↔ res.status = 204)) := by
  refine ⟨?_, ?_, ?_, ?_, ?_, ?_, ?_⟩
  · intro hok
    exact ⟨errMessage res, by simp [apiFetch, hok]⟩
  · intro hok d hb hd
    simp [apiFetch, hok, errMessage, hb, JsBody.jsDetail, jsOr, hd]
  · intro hok hb hst
    simp [apiFetch, hok, errMessage, hb, jsOr, hst]
  · intro hok hb
    simp [apiFetch, hok, errMessage, hb, JsBody.jsDetail, JsBody.jsString, jsOr]
  · intro hok h204
    simp [apiFetch, hok, h204]
  · intro hok h204 b hb
    simp [apiFetch, hok, h204, hb]
  · intro hok b hb
    by_cases h204 : res.status = 204
    · simp [apiFetch, hok, h204]
    · simp [apiFetch, hok, h204, hb]

/-- C7 witness: applying the amended theorem at a concrete non-ok response
with an unparseable body, the statusText is surfaced. -/
theorem apiFetch_error_surfacing_witness :
    apiFetch { ok := false, status := 404, statusText := "Not Found",
               body := none } = Except.error "Not Found" :=
  (apiFetch_error_surfacing
      { ok := false, status := 404, statusText := "Not Found",
        body := none }).2.2.1 rfl rfl (by decide)

/-- The single PeraWalletConnect instance the module ever constructs. -/
def peraWalletFirst : PeraWallet :=
  { instanceId := 0, chainId := 416002, connectorAccounts := none }

/-- The module state after the first wallet call in a browser session. -/
def walletModuleAfterFirst : WalletModuleState :=
  { peraWallet := some peraWalletFirst, constructed := 1 }

/-- Once the wallet module cache is populated, further calls through
getPeraWallet leave the module state untouched. -/
theorem runGetPeraWallet_cached (n : Nat) (st : WalletModuleState)
    (w : PeraWallet) (h : st.peraWallet = some w) :
    runGetPeraWallet n st = st := by
  induction n with
  | zero => rfl
  | succ k ih =>
      unfold runGetPeraWallet
      simp only [getPeraWallet, Bool.true_eq_false, if_false, h]
      exact ih

/-- C9: getPeraWallet throws outside the browser without constructing a
wallet; within one browser session any positive number of wallet calls
constructs exactly one PeraWalletConnect instance, configured with chainId
416002, and every further call returns that same instance with the state
unchanged; getConnectedAccounts acts on the cached instance, reading its
connector accounts with an empty-list default. -/
theorem pera_wallet_singleton (n : Nat) (st : WalletModuleState) :
    getPeraWallet false st =
        Except.error "Pera Wallet is only available in the browser" ∧
    ((runGetPeraWallet (n + 1) walletModuleLoad).constructed = 1 ∧
      ∃ w, (runGetPeraWallet (n + 1) walletModuleLoad).peraWallet = some w ∧
        w.chainId = 416002 ∧
        getPeraWallet true (runGetPeraWallet (n + 1) walletModuleLoad) =
          Except.ok (w, runGetPeraWallet (n + 1) walletModuleLoad)) ∧
    (∀ w, st.peraWallet = some w →
        getConnectedAccounts true st =
          Except.ok (w.connectorAccounts.getD [], st)) := by
  have hw : runGetPeraWallet (n + 1) walletModuleLoad = walletModuleAfterFirst := by
    have h1 : runGetPeraWallet (n + 1) walletModuleLoad =
        runGetPeraWallet n walletModuleAfterFirst := rfl
    rw [h1]
    exact runGetPeraWallet_cached n walletModuleAfterFirst peraWalletFirst rfl
  refine ⟨rfl, ?_, ?_⟩
  · rw [hw]
    exact ⟨rfl, peraWalletFirst, rfl, rfl, rfl⟩
  · intro w h
    simp [getConnectedAccounts, getPeraWallet, h]

/-- C9 witness: applying the theorem at the state after the first call,
getConnectedAccounts returns the cached connector accounts default. -/
theorem pera_wallet_singleton_witness :
    getConnectedAccounts true walletModuleAfterFirst =
      Except.ok ([], walletModuleAfterFirst) :=
  (pera_wallet_singleton 0 walletModuleAfterFirst).2.2 peraWalletFirst rfl

end TrustChain
